import Mathlib

/-!
Verification of the WayveScene101 scene-processing pipeline
(`process-scenes.py`), shallowly embedded in Lean 4.

Modelling conventions:
* The filesystem is explicit state: `FS` is the set of existing file paths,
  threaded through every operation.
* Every external effect (the `ffmpeg` encoder, the `colmap model_converter`
  executable, the open3d point-cloud codec, `os.remove`) is driven by an
  oracle recorded in an environment structure: the oracle says whether that
  call succeeds or raises, and the embedding performs the corresponding
  filesystem effect.  `subprocess.run(..., check=True)` raises
  `CalledProcessError` when the tool exits non-zero and `FileNotFoundError`
  when the executable is absent; these are distinct constructors of `PyExc`
  because the source catches them differently.
* Python exceptions are an explicit `Except PyExc` layer: a `try` body is a
  function into `Except`, and each `except` clause of the source is a match
  on the error constructor.  A Python function that can propagate an
  exception has an `Except` result type; one that catches everything has a
  plain `Option` result type.
* Paths are strings; `os.path.join a b` is `a ++ "/" ++ b` (the program only
  joins relative, slash-free components), `os.path.basename` takes the part
  after the last slash, `os.path.dirname` the part before it.
-/

namespace WayveScenes

/-- Decidable equality for `Except`, needed to evaluate concrete runs. -/
instance {ε α : Type} [DecidableEq ε] [DecidableEq α] : DecidableEq (Except ε α) :=
  fun a b =>
    match a, b with
    | .ok x, .ok y =>
      if h : x = y then isTrue (by rw [h]) else isFalse (by simp [h])
    | .error x, .error y =>
      if h : x = y then isTrue (by rw [h]) else isFalse (by simp [h])
    | .ok _, .error _ => isFalse (by simp)
    | .error _, .ok _ => isFalse (by simp)

/-- Python exceptions distinguished by the source's `except` clauses:
`subprocess.CalledProcessError` (tool exited non-zero under `check=True`),
`FileNotFoundError` (executable absent / path missing), and any other
`Exception` (e.g. an open3d codec failure or an `OSError` from `os.remove`). -/
inductive PyExc where
  | calledProcessError
  | fileNotFoundError
  | generalError
deriving Repr, DecidableEq

/-- Outcome of invoking an external executable via `subprocess.run(..., check=True)`:
it exits 0, exits non-zero (raising `CalledProcessError`), or the executable
is absent (raising `FileNotFoundError`). -/
inductive ToolOutcome where
  | success
  | exitNonzero
  | absent
deriving Repr, DecidableEq

/-- The filesystem: the set of file paths that currently exist. -/
structure FS where
  files : List String
deriving Repr, DecidableEq

/-- Creating / overwriting a file at `p` (idempotent on the path set). -/
def FS.addFile (fs : FS) (p : String) : FS :=
  if p ∈ fs.files then fs else ⟨p :: fs.files⟩

/-- Deleting the file at `p`. -/
def FS.removeFile (fs : FS) (p : String) : FS :=
  ⟨fs.files.filter (fun q => q ≠ p)⟩

/-- Model of `os.path.join` as used by the source: both arguments are
relative, slash-free components, so joining is separator insertion. -/
def pathJoin (a b : String) : String := a ++ "/" ++ b

/-- Model of `os.path.basename`: the component after the last `/` (the paths
this program builds use single separators). -/
def basename (p : String) : String :=
  ⟨(p.data.reverse.takeWhile (fun c => c ≠ '/')).reverse⟩

/-- Model of `os.path.dirname`: everything before the last `/` (the paths
this program builds use single separators). -/
def dirname (p : String) : String :=
  ⟨((p.data.reverse.dropWhile (fun c => c ≠ '/')).drop 1).reverse⟩

/-! ## `images_to_video` (process-scenes.py lines 9–35) -/

/-- The ffmpeg command list built by `images_to_video`. -/
def ffmpegCommand (image_folder : String) (output_video_path : String)
    (fps : Nat) : List String :=
  ["ffmpeg", "-y", "-framerate", toString fps, "-pattern_type", "glob",
   "-i", image_folder ++ "/*.jpeg", "-c:v", "libx264", "-pix_fmt", "yuv420p",
   "-crf", "23", output_video_path]

/-- Model of `images_to_video`: runs ffmpeg on a folder of images.  The `try`
block wraps the `subprocess.run(..., check=True)` call and `return True`; the
sole `except subprocess.CalledProcessError` clause returns `False`.  A
`FileNotFoundError` (ffmpeg absent) is not caught and propagates.  On
encoder success the output video file is written (ffmpeg `-y` overwrites). -/
def images_to_video (outcome : ToolOutcome) (image_folder : String)
    (output_video_path : String) (fps : Nat) (fs : FS) :
    Except PyExc Bool × FS :=
  let _cmd := ffmpegCommand image_folder output_video_path fps
  match outcome with
  | .success => (.ok true, fs.addFile output_video_path)
  | .exitNonzero => (.ok false, fs)
  | .absent => (.error .fileNotFoundError, fs)

/-! ## `run_colmap_converter` (process-scenes.py lines 37–79) -/

/-- Oracle for one `run_colmap_converter` call: the outcome of the
`colmap model_converter` invocation, and whether each of the three
subsequent effectful steps inside the `try` block raises
(`o3d.io.read_point_cloud`, `o3d.io.write_point_cloud`, `os.remove` —
the last can raise e.g. a `PermissionError` even when the file exists). -/
structure ColmapEnv where
  colmapOutcome : ToolOutcome
  readRaises : Bool
  writeRaises : Bool
  removeRaises : Bool
deriving Repr, DecidableEq

/-- The intermediate PLY path, `os.path.join` of the scene path and `model.ply`. -/
def plyOutputPath (scene_path : String) : String :=
  pathJoin scene_path "model.ply"

/-- The PCD output path: `os.path.join` of the scene path and the scene's
directory name with extension `.pcd`. -/
def pcdOutputPath (scene_path : String) : String :=
  pathJoin scene_path (basename scene_path ++ ".pcd")

/-- The `try` block of `run_colmap_converter`: run the converter (writing the
PLY on success), load the PLY and re-save it as PCD, delete the PLY, return
the PCD path.  Each step raises according to the oracle; effects performed
before a raise persist in the returned filesystem. -/
def run_colmap_converter_body (env : ColmapEnv) (scene_path : String)
    (fs : FS) : Except PyExc String × FS :=
  let ply_output_path := plyOutputPath scene_path
  let pcd_output_path := pcdOutputPath scene_path
  match env.colmapOutcome with
  | .exitNonzero => (.error .calledProcessError, fs)
  | .absent => (.error .fileNotFoundError, fs)
  | .success =>
    let fs1 := fs.addFile ply_output_path
    if env.readRaises then (.error .generalError, fs1)
    else if env.writeRaises then (.error .generalError, fs1)
    else
      let fs2 := fs1.addFile pcd_output_path
      if env.removeRaises then (.error .generalError, fs2)
      else (.ok pcd_output_path, fs2.removeFile ply_output_path)

/-- Model of `run_colmap_converter`: the `try` body with its two `except`
clauses.  `except subprocess.CalledProcessError` and `except Exception`
together catch every exception (including `FileNotFoundError`, a subclass of
`Exception`), both falling through to `return None`. -/
def run_colmap_converter (env : ColmapEnv) (scene_path : String) (fs : FS) :
    Option String × FS :=
  match run_colmap_converter_body env scene_path fs with
  | (.ok p, fs') => (some p, fs')
  | (.error _, fs') => (none, fs')

/-! ## `create_fiftyone_scene` (process-scenes.py lines 81–114) -/

/-- Oracle for one `create_fiftyone_scene` call: whether the body
(`fo.Scene()` construction / `scene.write`) raises. -/
structure DescEnv where
  writeRaises : Bool
deriving Repr, DecidableEq

/-- The `.fo3d` output path for a given PCD path: written into the PCD's
directory, named after that directory. -/
def fo3dOutputPath (pcd_path : String) : String :=
  pathJoin (dirname pcd_path) (basename (dirname pcd_path) ++ ".fo3d")

/-- Model of `create_fiftyone_scene`: builds a scene referencing the PCD and
writes it next to the PCD, named after the parent directory.  The whole body
is inside `try`, and `except Exception` converts any failure to `None`. -/
def create_fiftyone_scene (env : DescEnv) (pcd_path : String) (fs : FS) :
    Option String × FS :=
  let fo3d_output_path := fo3dOutputPath pcd_path
  if env.writeRaises then (none, fs)
  else (some fo3d_output_path, fs.addFile fo3d_output_path)

/-! ## `process_scene` (process-scenes.py lines 116–159) -/

/-- One entry of `os.listdir(images_dir)`: its name, whether it is a
directory (`os.path.isdir`), and — if the encoder is invoked on it — the
encoder outcome for this view. -/
structure DirEntry where
  name : String
  isDir : Bool
  encoderOutcome : ToolOutcome
deriving Repr, DecidableEq

/-- Oracle for the video stage of one scene: whether
`os.path.exists(images_dir)` holds, and the listing of `images_dir`. -/
structure SceneEnv where
  imagesDirExists : Bool
  entries : List DirEntry
deriving Repr, DecidableEq

/-- Trace events marking which stage bodies actually run. -/
inductive Event where
  | videoInvoked (view : String)
  | converterInvoked
  | descriptorInvoked
deriving Repr, DecidableEq

/-- The video path of one view of a scene: `os.path.join` of the scene path
and the scene name, underscore, view name, and `.mp4`. -/
def viewVideoPath (scene_path : String) (view : String) : String :=
  pathJoin scene_path (basename scene_path ++ "_" ++ view ++ ".mp4")

/-- The `for view_folder in os.listdir(images_dir)` loop of `process_scene`:
for each directory entry invoke `images_to_video`, appending the output path
on success.  An uncaught exception from `images_to_video` aborts the loop
(and propagates out of `process_scene`). -/
def videoLoop (scene_path : String) (entries : List DirEntry) (fs : FS) :
    Except PyExc (List String) × FS × List Event :=
  match entries with
  | [] => (.ok [], fs, [])
  | e :: rest =>
    if e.isDir then
      let video_path := viewVideoPath scene_path e.name
      match images_to_video e.encoderOutcome (pathJoin (pathJoin scene_path "images") e.name)
          video_path 10 fs with
      | (.ok true, fs') =>
        match videoLoop scene_path rest fs' with
        | (.ok vs, fs'', evs) =>
          (.ok (video_path :: vs), fs'', .videoInvoked e.name :: evs)
        | (.error ex, fs'', evs) => (.error ex, fs'', .videoInvoked e.name :: evs)
      | (.ok false, fs') =>
        match videoLoop scene_path rest fs' with
        | (r, fs'', evs) => (r, fs'', .videoInvoked e.name :: evs)
      | (.error ex, fs') => (.error ex, fs', [.videoInvoked e.name])
    else
      videoLoop scene_path rest fs

/-- Stage 1 of `process_scene`: if `images_dir` exists, run the view loop;
otherwise log and yield no videos. -/
def videoStage (env : SceneEnv) (scene_path : String) (fs : FS) :
    Except PyExc (List String) × FS × List Event :=
  if env.imagesDirExists then videoLoop scene_path env.entries fs
  else (.ok [], fs, [])

/-- Model of `process_scene`: stage 1 (videos), then `run_colmap_converter`;
if that returns `None` return `(video_paths, None)`; otherwise
`create_fiftyone_scene`, whose possibly-`None` result is the second
component.  An exception raised inside the video loop propagates. -/
def process_scene (env : SceneEnv) (cenv : ColmapEnv) (denv : DescEnv)
    (scene_path : String) (fs : FS) :
    Except PyExc (List String × Option String) × FS × List Event :=
  match videoStage env scene_path fs with
  | (.error ex, fs1, evs) => (.error ex, fs1, evs)
  | (.ok video_paths, fs1, evs) =>
    match run_colmap_converter cenv scene_path fs1 with
    | (none, fs2) => (.ok (video_paths, none), fs2, evs ++ [.converterInvoked])
    | (some pcd_path, fs2) =>
      match create_fiftyone_scene denv pcd_path fs2 with
      | (none, fs3) =>
        (.ok (video_paths, none), fs3, evs ++ [.converterInvoked, .descriptorInvoked])
      | (some fo3d_path, fs3) =>
        (.ok (video_paths, some fo3d_path), fs3,
          evs ++ [.converterInvoked, .descriptorInvoked])

/-! ## `process_all_scenes_parallel` aggregation (process-scenes.py lines 184–191) -/

/-- One step of the result-aggregation loop of `process_all_scenes_parallel`:
extend the video-path list with this scene's video paths, and append its
`.fo3d` path when present. -/
def aggregateStep (acc : List String × List String)
    (r : List String × Option String) : List String × List String :=
  (acc.1 ++ r.1,
   match r.2 with
   | some p => acc.2 ++ [p]
   | none => acc.2)

/-- The result-aggregation loop of `process_all_scenes_parallel`, folded over
the per-scene results in the order the pool delivers them. -/
def aggregateResults (results : List (List String × Option String)) :
    List String × List String :=
  results.foldl aggregateStep ([], [])

/-- Worker-pool size (process-scenes.py line 178):
`num_processes = max(1, cpu_count() - 1)`, on Python integers. -/
def num_processes (cpuCount : Int) : Int := max 1 (cpuCount - 1)

/-! ## CLI surface (process-scenes.py lines 209–268) -/

/-- The argparse `choices` list of the `--process` argument (line 263). -/
def processChoices : List String := ["all", "videos", "colmap", "fiftyone"]

/-- argparse accepts a `--process` value iff it is among `choices`. -/
def argparseAccepts (s : String) : Bool := processChoices.contains s

/-- The branch of `main` selected by `process_type` (lines 219–257). -/
inductive ProcAction where
  | allPipeline
  | videosOnly
  | colmapOnly
  | fiftyoneOnly
  | invalid
deriving Repr, DecidableEq

/-- The `if`/`elif` dispatch of `main` on `process_type`. -/
def mainDispatch (process_type : String) : ProcAction :=
  if process_type = "all" then .allPipeline
  else if process_type = "videos" then .videosOnly
  else if process_type = "colmap" then .colmapOnly
  else if process_type = "fiftyone" then .fiftyoneOnly
  else .invalid

/-! ## Derived characterizations used in theorem statements -/

/-- Result-kind test: `true` iff an `Except` value returned normally rather
than raising. -/
def exceptIsOk {ε α : Type} : Except ε α → Bool
  | .ok _ => true
  | .error _ => false

/-- A listing entry for which the encoder is invoked and succeeds: it is a
view subfolder (a directory) whose encoding exits 0. -/
def successfulView (e : DirEntry) : Bool :=
  e.isDir && e.encoderOutcome == ToolOutcome.success

/-- The video paths the loop is expected to return: one per successful view,
in listing order. -/
def expectedVideoPaths (sp : String) (entries : List DirEntry) : List String :=
  (entries.filter successfulView).map (fun e => viewVideoPath sp e.name)

/-! ## Helper lemmas -/

theorem FS.mem_addFile_self (fs : FS) (p : String) : p ∈ (fs.addFile p).files := by
  unfold FS.addFile
  split
  · assumption
  · exact List.mem_cons_self _ _

theorem FS.mem_addFile_of_mem {fs : FS} {q : String} (p : String)
    (h : q ∈ fs.files) : q ∈ (fs.addFile p).files := by
  unfold FS.addFile
  split
  · exact h
  · exact List.mem_cons_of_mem _ h

theorem FS.not_mem_removeFile (fs : FS) (p : String) :
    p ∉ (fs.removeFile p).files := by
  unfold FS.removeFile
  simp [List.mem_filter]

theorem expectedVideoPaths_cons_success {e : DirEntry} (sp : String) (rest : List DirEntry)
    (hdir : e.isDir = true) (hout : e.encoderOutcome = ToolOutcome.success) :
    expectedVideoPaths sp (e :: rest) =
      viewVideoPath sp e.name :: expectedVideoPaths sp rest := by
  simp [expectedVideoPaths, List.filter_cons, successfulView, hdir, hout]

theorem expectedVideoPaths_cons_skip {e : DirEntry} (sp : String) (rest : List DirEntry)
    (h : successfulView e = false) :
    expectedVideoPaths sp (e :: rest) = expectedVideoPaths sp rest := by
  simp [expectedVideoPaths, List.filter_cons, h]

theorem videoLoop_descriptor_not_mem (sp : String) (entries : List DirEntry) (fs : FS) :
    Event.descriptorInvoked ∉ (videoLoop sp entries fs).2.2 := by
  induction entries generalizing fs with
  | nil => simp [videoLoop]
  | cons e rest ih =>
    simp only [videoLoop]
    by_cases hdir : e.isDir
    · simp only [hdir, if_true]
      cases hout : e.encoderOutcome <;> simp only [images_to_video]
      · have h2 := ih (fs.addFile (viewVideoPath sp e.name))
        rcases hvl : videoLoop sp rest (fs.addFile (viewVideoPath sp e.name)) with ⟨r, fs'', evs⟩
        rw [hvl] at h2
        cases r <;> simp_all
      · have h2 := ih fs
        rcases hvl : videoLoop sp rest fs with ⟨r, fs'', evs⟩
        rw [hvl] at h2
        simp_all
      · simp
    · simp only [hdir, if_false]
      exact ih fs

theorem videoStage_descriptor_not_mem (env : SceneEnv) (sp : String) (fs : FS) :
    Event.descriptorInvoked ∉ (videoStage env sp fs).2.2 := by
  unfold videoStage
  split
  · exact videoLoop_descriptor_not_mem sp env.entries fs
  · simp

theorem videoLoop_spec (sp : String) (entries : List DirEntry) (fs : FS)
    (hp : ∀ e ∈ entries, e.isDir = true → e.encoderOutcome ≠ ToolOutcome.absent) :
    ∃ fs1 evs, videoLoop sp entries fs = (.ok (expectedVideoPaths sp entries), fs1, evs) ∧
      (∀ p ∈ expectedVideoPaths sp entries, p ∈ fs1.files) ∧
      (∀ q ∈ fs.files, q ∈ fs1.files) := by
  induction entries generalizing fs with
  | nil =>
    exact ⟨fs, [], by simp [videoLoop, expectedVideoPaths],
      by simp [expectedVideoPaths], fun q hq => hq⟩
  | cons e rest ih =>
    have hprest : ∀ e' ∈ rest, e'.isDir = true → e'.encoderOutcome ≠ ToolOutcome.absent :=
      fun e' he' => hp e' (List.mem_cons_of_mem _ he')
    by_cases hdir : e.isDir
    · cases hout : e.encoderOutcome
      · -- success: the output video is written, path appended
        obtain ⟨fs1, evs, heq, hmem, hmono⟩ := ih (fs.addFile (viewVideoPath sp e.name)) hprest
        refine ⟨fs1, Event.videoInvoked e.name :: evs, ?_, ?_, ?_⟩
        · simp only [videoLoop, hdir, if_true, hout, images_to_video, heq,
            expectedVideoPaths_cons_success sp rest hdir hout]
        · rw [expectedVideoPaths_cons_success sp rest hdir hout]
          intro p hpmem
          rcases List.mem_cons.mp hpmem with h | h
          · subst h
            exact hmono _ (FS.mem_addFile_self fs _)
          · exact hmem _ h
        · intro q hq
          exact hmono q (FS.mem_addFile_of_mem _ hq)
      · -- exitNonzero: caught, no path appended
        obtain ⟨fs1, evs, heq, hmem, hmono⟩ := ih fs hprest
        have hskip : successfulView e = false := by
          simp [successfulView, hout]
        refine ⟨fs1, Event.videoInvoked e.name :: evs, ?_, ?_, ?_⟩
        · simp only [videoLoop, hdir, if_true, hout, images_to_video, heq,
            expectedVideoPaths_cons_skip sp rest hskip]
        · rw [expectedVideoPaths_cons_skip sp rest hskip]
          exact hmem
        · exact hmono
      · -- absent: excluded by the hypothesis
        exact absurd hout (hp e (List.mem_cons_self _ _) (by simpa using hdir))
    · obtain ⟨fs1, evs, heq, hmem, hmono⟩ := ih fs hprest
      have hskip : successfulView e = false := by
        simp [successfulView, hdir]
      refine ⟨fs1, evs, ?_, ?_, ?_⟩
      · rw [expectedVideoPaths_cons_skip sp rest hskip]
        simp only [videoLoop, hdir]
        simpa using heq
      · rw [expectedVideoPaths_cons_skip sp rest hskip]
        exact hmem
      · exact hmono

theorem videoStage_ok (env : SceneEnv) (sp : String) (fs : FS)
    (hp : ∀ e ∈ env.entries, e.isDir = true → e.encoderOutcome ≠ ToolOutcome.absent) :
    ∃ vids fs1 evs, videoStage env sp fs = (.ok vids, fs1, evs) := by
  by_cases hdir : env.imagesDirExists = true
  · obtain ⟨fs1, evs, heq, _, _⟩ := videoLoop_spec sp env.entries fs hp
    exact ⟨expectedVideoPaths sp env.entries, fs1, evs, by simp [videoStage, hdir, heq]⟩
  · exact ⟨[], fs, [], by simp [videoStage, hdir]⟩

theorem process_scene_pair_of_videoStage_ok (env : SceneEnv) (cenv : ColmapEnv)
    (denv : DescEnv) (sp : String) (fs fs1 : FS) (vids : List String) (evs : List Event)
    (hv : videoStage env sp fs = (.ok vids, fs1, evs)) :
    ∃ d, (process_scene env cenv denv sp fs).1 = .ok (vids, d) := by
  rcases h2 : run_colmap_converter cenv sp fs1 with ⟨o, fs2⟩
  cases o with
  | none =>
    refine ⟨none, ?_⟩
    simp only [process_scene, hv, h2]
  | some pcd =>
    rcases h3 : create_fiftyone_scene denv pcd fs2 with ⟨o3, fs3⟩
    cases o3 with
    | none =>
      refine ⟨none, ?_⟩
      simp only [process_scene, hv, h2, h3]
    | some f =>
      refine ⟨some f, ?_⟩
      simp only [process_scene, hv, h2, h3]

theorem run_colmap_converter_fst (env : ColmapEnv) (sp : String) (fs : FS) :
    (run_colmap_converter env sp fs).1 =
      if env.colmapOutcome = ToolOutcome.success ∧ env.readRaises = false ∧
          env.writeRaises = false ∧ env.removeRaises = false
      then some (pcdOutputPath sp) else none := by
  obtain ⟨o, r, w, m⟩ := env
  cases o <;> cases r <;> cases w <;> cases m <;>
    simp [run_colmap_converter, run_colmap_converter_body]

theorem viewVideoPath_injective (sp : String) :
    Function.Injective (viewVideoPath sp) := by
  intro v v' h
  have hd : (viewVideoPath sp v).data = (viewVideoPath sp v').data := by rw [h]
  simp only [viewVideoPath, pathJoin, String.data_append, List.append_assoc] at hd
  have h1 := List.append_cancel_left hd
  have h2 := List.append_cancel_left h1
  have h3 := List.append_cancel_left h2
  have h4 := List.append_cancel_left h3
  have h5 := List.append_cancel_right h4
  exact String.ext h5

theorem expectedVideoPaths_nodup (sp : String) (entries : List DirEntry)
    (h : (entries.map DirEntry.name).Nodup) :
    (expectedVideoPaths sp entries).Nodup := by
  have hsub : List.Sublist ((entries.filter successfulView).map DirEntry.name)
      (entries.map DirEntry.name) :=
    (List.filter_sublist entries).map DirEntry.name
  have h1 : ((entries.filter successfulView).map DirEntry.name).Nodup := h.sublist hsub
  have h2 := h1.map (viewVideoPath_injective sp)
  rw [List.map_map] at h2
  exact h2

theorem aggregate_foldl_fst_length (l : List (List String × Option String))
    (acc : List String × List String) :
    (l.foldl aggregateStep acc).1.length =
      acc.1.length + (l.map (fun r => r.1.length)).sum := by
  induction l generalizing acc with
  | nil => simp
  | cons r rest ih =>
    simp only [List.foldl_cons, List.map_cons, List.sum_cons, ih (aggregateStep acc r)]
    simp [aggregateStep]
    omega

theorem aggregate_foldl_snd_length (l : List (List String × Option String))
    (acc : List String × List String) :
    (l.foldl aggregateStep acc).2.length =
      acc.2.length + l.countP (fun r => r.2.isSome) := by
  induction l generalizing acc with
  | nil => simp
  | cons r rest ih =>
    simp only [List.foldl_cons, List.countP_cons, ih (aggregateStep acc r)]
    rcases r with ⟨vs, d⟩
    cases d
    · simp [aggregateStep]
    · simp [aggregateStep]
      omega

theorem aggregateResults_fst_length (l : List (List String × Option String)) :
    (aggregateResults l).1.length = (l.map (fun r => r.1.length)).sum := by
  simpa using aggregate_foldl_fst_length l ([], [])

theorem aggregateResults_snd_length (l : List (List String × Option String)) :
    (aggregateResults l).2.length = l.countP (fun r => r.2.isSome) := by
  simpa using aggregate_foldl_snd_length l ([], [])

/-! ## Claim theorems -/

/-- Claim C1: for every scene, if the reconstruction conversion stage
(`run_colmap_converter`) returns null, the scene-descriptor stage
(`create_fiftyone_scene`) is never invoked and `process_scene` returns the
pair of the video paths accumulated so far and a null descriptor. -/
theorem claim1_stage_short_circuit (env : SceneEnv) (cenv : ColmapEnv) (denv : DescEnv)
    (sp : String) (fs fs1 : FS) (vids : List String) (evs : List Event)
    (hv : videoStage env sp fs = (.ok vids, fs1, evs))
    (hc : (run_colmap_converter cenv sp fs1).1 = none) :
    (process_scene env cenv denv sp fs).1 = .ok (vids, none) ∧
    Event.descriptorInvoked ∉ (process_scene env cenv denv sp fs).2.2 := by
  have hdesc : Event.descriptorInvoked ∉ evs := by
    have h := videoStage_descriptor_not_mem env sp fs
    rw [hv] at h
    exact h
  rcases h2 : run_colmap_converter cenv sp fs1 with ⟨o, fs2⟩
  rw [h2] at hc
  have ho : o = none := hc
  subst ho
  constructor
  · simp only [process_scene, hv, h2]
  · simp only [process_scene, hv, h2]
    simp [hdesc]

/-- Concrete instance of C1: one successful view, converter exits non-zero. -/
theorem claim1_stage_short_circuit_witness :
    (process_scene ⟨true, [⟨"front-forward", true, ToolOutcome.success⟩]⟩
        ⟨ToolOutcome.exitNonzero, false, false, false⟩ ⟨false⟩ "/data/scene_001" ⟨[]⟩).1 =
      .ok (["/data/scene_001/scene_001_front-forward.mp4"], none) ∧
    Event.descriptorInvoked ∉
      (process_scene ⟨true, [⟨"front-forward", true, ToolOutcome.success⟩]⟩
        ⟨ToolOutcome.exitNonzero, false, false, false⟩ ⟨false⟩ "/data/scene_001" ⟨[]⟩).2.2 :=
  claim1_stage_short_circuit _ _ _ _ _
    ⟨["/data/scene_001/scene_001_front-forward.mp4"]⟩
    ["/data/scene_001/scene_001_front-forward.mp4"]
    [Event.videoInvoked "front-forward"] (by decide) (by decide)

/-- Claim C2 counterexample: with the encoder executable absent for one view
(`subprocess.run` raising `FileNotFoundError`, which `images_to_video` does
not catch), `process_scene` propagates the exception instead of returning a
pair — refuting "never raises". -/
theorem claim2_counterexample :
    (process_scene ⟨true, [⟨"front-forward", true, ToolOutcome.absent⟩]⟩
        ⟨ToolOutcome.success, false, false, false⟩ ⟨false⟩ "/data/scene_001" ⟨[]⟩).1 =
      .error .fileNotFoundError := by decide

/-- Claim C2 (amended): `process_scene` always returns a pair — converter and
descriptor failures and encoder non-zero exits are absorbed — provided no
encoder invocation raises a non-`CalledProcessError` exception (i.e. the
encoder executable is present for every view subfolder). -/
theorem claim2_returns_pair_when_encoder_present (env : SceneEnv) (cenv : ColmapEnv)
    (denv : DescEnv) (sp : String) (fs : FS)
    (hp : ∀ e ∈ env.entries, e.isDir = true → e.encoderOutcome ≠ ToolOutcome.absent) :
    exceptIsOk (process_scene env cenv denv sp fs).1 = true := by
  obtain ⟨vids, fs1, evs, hv⟩ := videoStage_ok env sp fs hp
  obtain ⟨d, hd⟩ := process_scene_pair_of_videoStage_ok env cenv denv sp fs fs1 vids evs hv
  rw [hd]
  rfl

/-- Concrete instance of amended C2: encoder exits non-zero, converter fails —
still a normal pair return. -/
theorem claim2_returns_pair_witness :
    exceptIsOk (process_scene ⟨true, [⟨"front-forward", true, ToolOutcome.exitNonzero⟩]⟩
        ⟨ToolOutcome.exitNonzero, false, false, false⟩ ⟨false⟩ "/data/scene_001" ⟨[]⟩).1 = true :=
  claim2_returns_pair_when_encoder_present _ _ _ _ _ (by decide)

/-- Claim C3 counterexample: with the encoder executable absent,
`images_to_video` raises (`FileNotFoundError` is not `CalledProcessError`,
the only exception its handler catches) instead of returning `False`. -/
theorem claim3_counterexample :
    images_to_video ToolOutcome.absent "/data/scene_001/images/front-forward"
        "/data/scene_001/scene_001_front-forward.mp4" 10 ⟨[]⟩ =
      (.error .fileNotFoundError, ⟨[]⟩) := by decide

/-- Claim C3 (amended): on the encoder exiting non-zero, `images_to_video`
returns `False` and does not raise; on encoder success it returns `True` and
writes the output file; on the encoder being absent it raises
`FileNotFoundError` (the failure is escalated past the call). -/
theorem claim3_encoder_failure_as_data (outcome : ToolOutcome)
    (image_folder output_video_path : String) (fps : Nat) (fs : FS) :
    (outcome = ToolOutcome.exitNonzero →
      images_to_video outcome image_folder output_video_path fps fs = (.ok false, fs)) ∧
    (outcome = ToolOutcome.success →
      images_to_video outcome image_folder output_video_path fps fs =
        (.ok true, fs.addFile output_video_path)) ∧
    (outcome = ToolOutcome.absent →
      images_to_video outcome image_folder output_video_path fps fs =
        (.error .fileNotFoundError, fs)) := by
  refine ⟨?_, ?_, ?_⟩ <;> (intro h; subst h; rfl)

/-- Concrete instance of amended C3: non-zero encoder exit returns `False`. -/
theorem claim3_encoder_failure_witness :
    images_to_video ToolOutcome.exitNonzero "/data/scene_001/images/front-forward"
        "/data/scene_001/scene_001_front-forward.mp4" 10 ⟨[]⟩ = (.ok false, ⟨[]⟩) :=
  (claim3_encoder_failure_as_data ToolOutcome.exitNonzero
    "/data/scene_001/images/front-forward"
    "/data/scene_001/scene_001_front-forward.mp4" 10 ⟨[]⟩).1 rfl

/-- Claim C4: whenever `run_colmap_converter` returns a non-null point-cloud
path, the intermediate PLY file is not on disk in the resulting filesystem
state — the intermediate file is never part of the retained output on the
success path. -/
theorem claim4_ply_deleted_on_success (cenv : ColmapEnv) (sp : String) (fs : FS)
    (p : String) (h : (run_colmap_converter cenv sp fs).1 = some p) :
    plyOutputPath sp ∉ (run_colmap_converter cenv sp fs).2.files := by
  obtain ⟨o, r, w, m⟩ := cenv
  cases o <;> cases r <;> cases w <;> cases m <;>
    simp_all [run_colmap_converter, run_colmap_converter_body, FS.removeFile, List.mem_filter]

/-- Concrete instance of C4: a fully successful conversion leaves no PLY. -/
theorem claim4_ply_deleted_witness :
    plyOutputPath "/data/scene_001" ∉
      (run_colmap_converter ⟨ToolOutcome.success, false, false, false⟩
        "/data/scene_001" ⟨[]⟩).2.files :=
  claim4_ply_deleted_on_success _ _ _ (pcdOutputPath "/data/scene_001") (by decide)

/-- Claim C5: `run_colmap_converter` returns the PCD path on success and null
on failure; every exception of its `try` body — in particular (a) the
conversion invocation failing and (b) the load/resave step failing — is
caught and converted to a null result rather than propagated. -/
theorem claim5_converter_null_on_failure (cenv : ColmapEnv) (sp : String) (fs : FS) :
    (∀ e, (run_colmap_converter_body cenv sp fs).1 = .error e →
      (run_colmap_converter cenv sp fs).1 = none) ∧
    (cenv.colmapOutcome ≠ ToolOutcome.success →
      (run_colmap_converter cenv sp fs).1 = none) ∧
    ((cenv.readRaises = true ∨ cenv.writeRaises = true) →
      (run_colmap_converter cenv sp fs).1 = none) ∧
    (cenv.colmapOutcome = ToolOutcome.success → cenv.readRaises = false →
      cenv.writeRaises = false → cenv.removeRaises = false →
      (run_colmap_converter cenv sp fs).1 = some (pcdOutputPath sp)) := by
  refine ⟨?_, ?_, ?_, ?_⟩
  · intro e he
    rcases hb : run_colmap_converter_body cenv sp fs with ⟨r, fs'⟩
    rw [hb] at he
    have hr : r = .error e := he
    subst hr
    simp [run_colmap_converter, hb]
  · intro h
    rw [run_colmap_converter_fst]
    apply if_neg
    rintro ⟨h1, -, -, -⟩
    exact h h1
  · intro h
    rw [run_colmap_converter_fst]
    apply if_neg
    rintro ⟨-, h2, h3, -⟩
    rcases h with h | h <;> simp_all
  · intro h1 h2 h3 h4
    rw [run_colmap_converter_fst, if_pos ⟨h1, h2, h3, h4⟩]

/-- Concrete instances of C5: converter non-zero exit gives null, codec read
failure gives null, full success gives the PCD path. -/
theorem claim5_converter_null_witness :
    (run_colmap_converter ⟨ToolOutcome.exitNonzero, false, false, false⟩
        "/data/scene_001" ⟨[]⟩).1 = none ∧
    (run_colmap_converter ⟨ToolOutcome.success, true, false, false⟩
        "/data/scene_001" ⟨[]⟩).1 = none ∧
    (run_colmap_converter ⟨ToolOutcome.success, false, false, false⟩
        "/data/scene_001" ⟨[]⟩).1 = some (pcdOutputPath "/data/scene_001") :=
  ⟨(claim5_converter_null_on_failure ⟨ToolOutcome.exitNonzero, false, false, false⟩
      "/data/scene_001" ⟨[]⟩).2.1 (by decide),
   (claim5_converter_null_on_failure ⟨ToolOutcome.success, true, false, false⟩
      "/data/scene_001" ⟨[]⟩).2.2.1 (Or.inl rfl),
   (claim5_converter_null_on_failure ⟨ToolOutcome.success, false, false, false⟩
      "/data/scene_001" ⟨[]⟩).2.2.2 rfl rfl rfl rfl⟩

/-- Claim C6: the batch aggregates (total video count and total descriptor
count) computed by the `process_all_scenes_parallel` aggregation loop are
invariant under permuting the order in which per-scene results arrive. -/
theorem claim6_aggregation_order_independent
    (r1 r2 : List (List String × Option String)) (h : r1.Perm r2) :
    (aggregateResults r1).1.length = (aggregateResults r2).1.length ∧
    (aggregateResults r1).2.length = (aggregateResults r2).2.length := by
  constructor
  · rw [aggregateResults_fst_length, aggregateResults_fst_length]
    exact (h.map fun r => r.1.length).sum_eq
  · rw [aggregateResults_snd_length, aggregateResults_snd_length]
    exact h.countP_eq _

/-- Concrete instance of C6: two result lists in opposite orders. -/
theorem claim6_aggregation_witness :
    (aggregateResults [(["a.mp4"], some "a.fo3d"), (["b.mp4", "c.mp4"], none)]).1.length =
      (aggregateResults [(["b.mp4", "c.mp4"], none), (["a.mp4"], some "a.fo3d")]).1.length ∧
    (aggregateResults [(["a.mp4"], some "a.fo3d"), (["b.mp4", "c.mp4"], none)]).2.length =
      (aggregateResults [(["b.mp4", "c.mp4"], none), (["a.mp4"], some "a.fo3d")]).2.length :=
  claim6_aggregation_order_independent _ _ (by decide)

/-- Claim C7: with the encoder present, the video stage returns exactly one
video path per view subfolder whose encoding succeeds (`K` of the `N`
entries), those paths exist in the resulting filesystem, they are distinct
when the view names are, and `process_scene` returns exactly that list; a
missing images root yields the empty list and is not an error. -/
theorem claim7_video_count (env : SceneEnv) (cenv : ColmapEnv) (denv : DescEnv)
    (sp : String) (fs : FS)
    (hp : ∀ e ∈ env.entries, e.isDir = true → e.encoderOutcome ≠ ToolOutcome.absent) :
    (env.imagesDirExists = false → videoStage env sp fs = (.ok [], fs, [])) ∧
    (env.imagesDirExists = true →
      ∃ fs1 evs, videoStage env sp fs = (.ok (expectedVideoPaths sp env.entries), fs1, evs) ∧
        (expectedVideoPaths sp env.entries).length =
          (env.entries.filter successfulView).length ∧
        (∀ p ∈ expectedVideoPaths sp env.entries, p ∈ fs1.files) ∧
        ((env.entries.map DirEntry.name).Nodup → (expectedVideoPaths sp env.entries).Nodup) ∧
        ∃ d, (process_scene env cenv denv sp fs).1 =
          .ok (expectedVideoPaths sp env.entries, d)) := by
  constructor
  · intro hdir
    simp [videoStage, hdir]
  · intro hdir
    obtain ⟨fs1, evs, heq, hmem, hmono⟩ := videoLoop_spec sp env.entries fs hp
    have hv : videoStage env sp fs = (.ok (expectedVideoPaths sp env.entries), fs1, evs) := by
      simp [videoStage, hdir, heq]
    refine ⟨fs1, evs, hv, ?_, hmem,
      fun hnd => expectedVideoPaths_nodup sp env.entries hnd, ?_⟩
    · simp [expectedVideoPaths]
    · exact process_scene_pair_of_videoStage_ok env cenv denv sp fs fs1 _ evs hv

/-- Concrete instance of C7: three view folders, two encode successfully. -/
theorem claim7_video_count_witness :
    ∃ fs1 evs,
      videoStage ⟨true, [⟨"front-forward", true, ToolOutcome.success⟩,
          ⟨"left-backward", true, ToolOutcome.exitNonzero⟩,
          ⟨"right-forward", true, ToolOutcome.success⟩]⟩ "/data/scene_001" ⟨[]⟩ =
        (.ok (expectedVideoPaths "/data/scene_001"
            [⟨"front-forward", true, ToolOutcome.success⟩,
             ⟨"left-backward", true, ToolOutcome.exitNonzero⟩,
             ⟨"right-forward", true, ToolOutcome.success⟩]), fs1, evs) ∧
      (expectedVideoPaths "/data/scene_001"
          [⟨"front-forward", true, ToolOutcome.success⟩,
           ⟨"left-backward", true, ToolOutcome.exitNonzero⟩,
           ⟨"right-forward", true, ToolOutcome.success⟩]).length =
        (List.filter successfulView
          [⟨"front-forward", true, ToolOutcome.success⟩,
           ⟨"left-backward", true, ToolOutcome.exitNonzero⟩,
           ⟨"right-forward", true, ToolOutcome.success⟩]).length ∧
      (∀ p ∈ expectedVideoPaths "/data/scene_001"
          [⟨"front-forward", true, ToolOutcome.success⟩,
           ⟨"left-backward", true, ToolOutcome.exitNonzero⟩,
           ⟨"right-forward", true, ToolOutcome.success⟩], p ∈ fs1.files) ∧
      ((List.map DirEntry.name
          [⟨"front-forward", true, ToolOutcome.success⟩,
           ⟨"left-backward", true, ToolOutcome.exitNonzero⟩,
           ⟨"right-forward", true, ToolOutcome.success⟩]).Nodup →
        (expectedVideoPaths "/data/scene_001"
          [⟨"front-forward", true, ToolOutcome.success⟩,
           ⟨"left-backward", true, ToolOutcome.exitNonzero⟩,
           ⟨"right-forward", true, ToolOutcome.success⟩]).Nodup) ∧
      ∃ d, (process_scene ⟨true, [⟨"front-forward", true, ToolOutcome.success⟩,
            ⟨"left-backward", true, ToolOutcome.exitNonzero⟩,
            ⟨"right-forward", true, ToolOutcome.success⟩]⟩
          ⟨ToolOutcome.success, false, false, false⟩ ⟨false⟩ "/data/scene_001" ⟨[]⟩).1 =
        .ok (expectedVideoPaths "/data/scene_001"
          [⟨"front-forward", true, ToolOutcome.success⟩,
           ⟨"left-backward", true, ToolOutcome.exitNonzero⟩,
           ⟨"right-forward", true, ToolOutcome.success⟩], d) :=
  (claim7_video_count ⟨true, [⟨"front-forward", true, ToolOutcome.success⟩,
      ⟨"left-backward", true, ToolOutcome.exitNonzero⟩,
      ⟨"right-forward", true, ToolOutcome.success⟩]⟩
    ⟨ToolOutcome.success, false, false, false⟩ ⟨false⟩ "/data/scene_001" ⟨[]⟩
    (by decide)).2 rfl

/-- Claim C8: the worker-pool size is `max(1, cpu_count - 1)`: hardware
parallelism minus one with a floor of one worker, for every cpu count. -/
theorem claim8_pool_size (c : Int) :
    num_processes c = max 1 (c - 1) ∧ 1 ≤ num_processes c ∧
    (2 ≤ c → num_processes c = c - 1) ∧ (c ≤ 2 → num_processes c = 1) := by
  refine ⟨rfl, le_max_left _ _, fun h => max_eq_right (by omega),
    fun h => max_eq_left (by omega)⟩

/-- Concrete instance of C8: eight cores give seven workers. -/
theorem claim8_pool_size_witness : num_processes 8 = 8 - 1 :=
  (claim8_pool_size 8).2.2.1 (by norm_num)

/-- Claim C9 counterexample: the CLI stage selector does not accept
`reconstruction` or `descriptor`; its choices list is not the one the claim
states. -/
theorem claim9_counterexample :
    argparseAccepts "reconstruction" = false ∧ argparseAccepts "descriptor" = false ∧
    processChoices ≠ ["all", "videos", "reconstruction", "descriptor"] := by decide

/-- Claim C9 (amended): the stage selector accepts exactly the four values
`all`, `videos`, `colmap`, `fiftyone`, selecting the full pipeline, the
video stage, the reconstruction-conversion stage, and the descriptor stage
respectively. -/
theorem claim9_stage_selector (s : String) :
    processChoices = ["all", "videos", "colmap", "fiftyone"] ∧
    mainDispatch "all" = ProcAction.allPipeline ∧
    mainDispatch "videos" = ProcAction.videosOnly ∧
    mainDispatch "colmap" = ProcAction.colmapOnly ∧
    mainDispatch "fiftyone" = ProcAction.fiftyoneOnly ∧
    (argparseAccepts s = true ↔
      s = "all" ∨ s = "videos" ∨ s = "colmap" ∨ s = "fiftyone") := by
  refine ⟨rfl, rfl, rfl, rfl, rfl, ?_⟩
  simp [argparseAccepts, processChoices]

/-- Concrete instance of amended C9. -/
theorem claim9_stage_selector_witness : argparseAccepts "colmap" = true :=
  (claim9_stage_selector "colmap").2.2.2.2.2.mpr (Or.inr (Or.inr (Or.inl rfl)))

/-- Claim C10: a null converter result is not atomic with respect to on-disk
state: when `os.remove` of the intermediate PLY raises after the PCD was
already written, `run_colmap_converter` returns null yet the PCD file is on
disk. -/
theorem claim10_null_result_with_pcd_on_disk :
    (run_colmap_converter ⟨ToolOutcome.success, false, false, true⟩
        "/data/scene_042" ⟨[]⟩).1 = none ∧
    pcdOutputPath "/data/scene_042" ∈
      (run_colmap_converter ⟨ToolOutcome.success, false, false, true⟩
        "/data/scene_042" ⟨[]⟩).2.files := by decide

end WayveScenes
